import Mathlib

/-!
Verification of the EHRApp visit-lifecycle core.

This file gives a shallow embedding of the parts of the backend that the
spec's testable properties are about:

* `app/utils/visit_number_generator.py` — `VisitNumberGenerator.generate`,
  `validate`, `parse` (identifier strings are modelled as `List Char`);
* `app/models/enums.py` — `VisitStatus`, `Priority`,
  `ALLOWED_STATUS_TRANSITIONS`;
* `app/api/v1/visits/service.py` — `update_status`,
  `validate_status_transition`, `cancel_visit`, `start_consultation`,
  `complete_consultation`, `get_queue` (its ORDER BY clause), and the
  average computations of `get_visit_stats`.

Database sessions are modelled by explicit state (a list of already issued
identifier strings for the generator; a single `Visit` record for the
status operations, with commit-on-success / rollback-on-error semantics).
Timestamps are modelled as integers (epoch seconds) and the statistics
averages over the rationals.
-/

namespace EHR

/-! ### Decimal digits on `List Char`

Helpers shared by the identifier formatting and parsing code.  They model
Python's `f"{n}"` / `f"{n:05d}"` formatting and `int(s)` conversion on
strings of decimal digits (the only shape of string the generator module
ever feeds to `int`; Python's `int` also tolerates signs and whitespace,
which never occur in the dash-separated parts handled here).
-/

/-- Character for a single decimal digit `d < 10` (`'0'` is code 48). -/
def digitChar (d : ℕ) : Char := Char.ofNat (48 + d)

/-- Numeric value of a decimal digit character. -/
def charVal (c : Char) : ℕ := c.toNat - 48

/-- Is `c` one of `'0'`–`'9'`? -/
def isDigitChar (c : Char) : Bool := 48 ≤ c.toNat && c.toNat ≤ 57

/-- Little-endian decimal digits of `n`, with explicit fuel so that the
recursion is structural (the fuel is always instantiated with `n` itself,
which bounds the number of divisions by 10). -/
def toRevDigitsAux : ℕ → ℕ → List ℕ
  | 0, _ => []
  | fuel + 1, n => if n = 0 then [] else n % 10 :: toRevDigitsAux fuel (n / 10)

/-- Little-endian decimal digits of `n` (empty for `n = 0`). -/
def toRevDigits (n : ℕ) : List ℕ := toRevDigitsAux n n

/-- Decimal rendering of `n`, as Python's `f"{n}"` produces it. -/
def natToChars (n : ℕ) : List Char :=
  if n = 0 then ['0'] else ((toRevDigits n).reverse.map digitChar)

/-- Value of a most-significant-first digit string (`int` on a string of
decimal digits; leading zeros are accepted and ignored). -/
def digitsToNat (cs : List Char) : ℕ :=
  cs.foldl (fun acc c => 10 * acc + charVal c) 0

/-- Conversion of a character list to a number, as `int(s)` behaves on the
generator's inputs: it succeeds exactly on non-empty all-digit strings
(modelling the `try: int(...) except ValueError` pattern). -/
def parseNatChars (cs : List Char) : Option ℕ :=
  if cs ≠ [] ∧ cs.all isDigitChar then some (digitsToNat cs) else none

/-- Zero-pad to five characters, as `f"{n:05d}"`: shorter strings are
left-padded with `'0'`, strings of five or more characters are unchanged. -/
def pad5 (cs : List Char) : List Char :=
  List.replicate (5 - cs.length) '0' ++ cs

/-! ### `app/utils/visit_number_generator.py` -/

namespace VisitNumberGenerator

/-- Fixed prefix of visit numbers (`PREFIX = "VIS"`). -/
def pfx : List Char := "VIS".toList

/-- Formatted identifier `f"{PREFIX}-{year}-{n:05d}"`. -/
def formatNumber (year n : ℕ) : List Char :=
  pfx ++ '-' :: natToChars year ++ '-' :: pad5 (natToChars n)

/-- Does `s` start with `pat`?  Models the SQL `LIKE "VIS-YYYY-%"` filter
of `generate` (the pattern's only wildcard is the trailing `%`). -/
def startsWithChars : List Char → List Char → Bool
  | [], _ => true
  | _ :: _, [] => false
  | p :: ps, c :: cs => p = c && startsWithChars ps cs

/-- LIKE pattern `f"{PREFIX}-{year}-%"` of `generate`, minus the trailing
wildcard. -/
def yearPattern (year : ℕ) : List Char := pfx ++ '-' :: natToChars year ++ ['-']

/-- The `VisitNumberGenerator.generate` body: count the stored visit
numbers matching the current year's pattern and format `count + 1`.  The
database session is modelled by `store`, the list of visit numbers already
persisted; `datetime.now().year` is the explicit `year` argument. -/
def generate (store : List (List Char)) (year : ℕ) : List Char :=
  let count := (store.filter fun s => startsWithChars (yearPattern year) s).length
  formatNumber year (count + 1)

/-- Components returned by `parse`. -/
structure Parsed where
  pfx : List Char
  year : ℕ
  sequence : ℕ
  deriving DecidableEq, Repr

/-- Python's `"…".split("-")`: cut the character list at every dash
(adjacent dashes give empty segments, exactly as in Python). -/
def splitDash : List Char → List (List Char)
  | [] => [[]]
  | c :: rest =>
    if c = '-' then [] :: splitDash rest
    else
      match splitDash rest with
      | [] => [[c]]
      | p :: ps => (c :: p) :: ps

/-- Checks applied by `validate` to the three dash-separated parts: the
prefix must equal `VIS`, `int(year)` must land in 2020–2100 and
`int(sequence)` in 1–99999, with a conversion failure (`ValueError`)
returning `False`. -/
def validateParts (p y q : List Char) : Bool :=
  if p ≠ pfx then false
  else
    match parseNatChars y with
    | none => false
    | some yn =>
      if yn < 2020 ∨ 2100 < yn then false
      else
        match parseNatChars q with
        | none => false
        | some qn =>
          if qn < 1 ∨ 99999 < qn then false
          else true

/-- The `VisitNumberGenerator.validate` body: non-empty, exactly three
dash-separated parts, and the per-part checks of `validateParts`. -/
def validate (visit_number : List Char) : Bool :=
  if visit_number = [] then false
  else
    match splitDash visit_number with
    | [p, y, q] => validateParts p y q
    | _ => false

/-- Conversion applied by `parse` to the three dash-separated parts after
`validate` has passed: `int(year)` and `int(sequence)`.  The option match
mirrors the unconditional conversions of the source, which `validate` has
already guaranteed to succeed. -/
def parseParts (p y q : List Char) : Option Parsed :=
  match parseNatChars y, parseNatChars q with
  | some yn, some qn => some ⟨p, yn, qn⟩
  | _, _ => none

/-- The `VisitNumberGenerator.parse` body: raise `ValueError` (modelled as
`none`) when `validate` rejects, otherwise split on `-` and convert the
year and sequence parts with `int`. -/
def parse (visit_number : List Char) : Option Parsed :=
  if validate visit_number then
    match splitDash visit_number with
    | [p, y, q] => parseParts p y q
    | _ => none
  else none

/-! ### Two concurrent `generate` calls

`generate` performs two database actions: the `SELECT COUNT` read and (at
the caller's commit) the insertion of the returned number.  A concurrent
execution of two calls is an interleaving of these four atomic actions.
`act` performs the next pending action of the chosen call. -/

/-- Joint state of the store and two in-flight `generate` calls:
`r1`/`r2` hold the value computed from each call's read once it happened,
`c1`/`c2` record whether the call's insert has committed. -/
structure TwoCalls where
  store : List (List Char)
  r1 : Option (List Char)
  c1 : Bool
  r2 : Option (List Char)
  c2 : Bool
  deriving DecidableEq

/-- Perform the next pending atomic action of call 1 (`i = true`) or
call 2 (`i = false`): first the counted read, then the commit that
inserts the computed number into the store. -/
def act (year : ℕ) (s : TwoCalls) (i : Bool) : TwoCalls :=
  if i then
    match s.r1, s.c1 with
    | none, _ => { s with r1 := some (generate s.store year) }
    | some n, false => { s with store := n :: s.store, c1 := true }
    | some _, true => s
  else
    match s.r2, s.c2 with
    | none, _ => { s with r2 := some (generate s.store year) }
    | some n, false => { s with store := n :: s.store, c2 := true }
    | some _, true => s

/-- Run a schedule (a list of call choices) of two concurrent `generate`
calls against an initial store. -/
def runTwo (year : ℕ) (store0 : List (List Char)) (moves : List Bool) : TwoCalls :=
  moves.foldl (act year) ⟨store0, none, false, none, false⟩

end VisitNumberGenerator

/-! ### `app/models/enums.py` -/

/-- Visit status enumeration (`VisitStatus`). -/
inductive VisitStatus
  | registered
  | waiting
  | in_progress
  | completed
  | cancelled
  deriving DecidableEq, Repr, Fintype

/-- Visit priority enumeration (`Priority`). -/
inductive Priority
  | normal
  | urgent
  | emergency
  deriving DecidableEq, Repr, Fintype

/-- Visit type enumeration (`VisitType`). -/
inductive VisitType
  | consultation
  | follow_up
  | emergency
  | procedure
  deriving DecidableEq, Repr, Fintype

/-- The `ALLOWED_STATUS_TRANSITIONS` dict.  The source reads it with
`.get(current, [])`, so it is a total function into lists of allowed
targets. -/
def ALLOWED_STATUS_TRANSITIONS : VisitStatus → List VisitStatus
  | .registered => [.waiting, .cancelled]
  | .waiting => [.in_progress, .cancelled]
  | .in_progress => [.completed, .cancelled]
  | .completed => []
  | .cancelled => []

/-! ### `app/api/v1/visits/service.py` — status operations

The visit record carries the fields these operations read or write.  The
`Visit` ORM model file itself is not in the source tree; the fields and
their defaults at creation follow the service code (`create_visit` sets
`status = REGISTERED` and `check_in_time = now`) and §3 of the spec for
the remaining defaults (consultation timestamps and cancellation reason
unset at creation).  Timestamps are epoch seconds, user/doctor ids are
numbers. -/

structure Visit where
  status : VisitStatus
  check_in_time : ℤ
  consultation_start_time : Option ℤ
  consultation_end_time : Option ℤ
  cancellation_reason : Option String
  assigned_doctor_id : Option ℕ
  updated_by : Option ℕ
  deriving DecidableEq, Repr

/-- Payload of a status-update request (`VisitStatusUpdate` schema): the
target status and an optional cancellation reason. -/
structure VisitStatusUpdate where
  status : VisitStatus
  cancellation_reason : Option String := none
  deriving DecidableEq, Repr

/-- The two validation errors `update_status` can raise, distinguished by
their stable messages: HTTP 400 `"Cannot transition from … to …"` and
HTTP 400 `"Cancellation reason is required"`. -/
inductive UpdateError
  | invalidTransition
  | missingReason
  deriving DecidableEq, Repr

/-- Python falsiness of the reason field: `not status_data.cancellation_reason`
is true when the reason is `None` or the empty string. -/
def reasonAbsent : Option String → Bool
  | none => true
  | some r => r = ""

namespace VisitService

/-- The `VisitService.validate_status_transition` body:
`new in ALLOWED_STATUS_TRANSITIONS.get(current, [])`. -/
def validate_status_transition (current new : VisitStatus) : Bool :=
  decide (new ∈ ALLOWED_STATUS_TRANSITIONS current)

/-- The `VisitService.update_status` body, on an already loaded visit:
validate the transition, require a (truthy) cancellation reason when the
target is `cancelled`, then set the status and the status-dependent
fields.  `datetime.utcnow()` is the explicit `now` argument. -/
def update_status (visit : Visit) (status_data : VisitStatusUpdate)
    (current_user : ℕ) (now : ℤ) : Except UpdateError Visit :=
  let new_status := status_data.status
  if ¬ validate_status_transition visit.status new_status then
    Except.error UpdateError.invalidTransition
  else if new_status = VisitStatus.cancelled ∧ reasonAbsent status_data.cancellation_reason then
    Except.error UpdateError.missingReason
  else
    let v1 := { visit with status := new_status, updated_by := some current_user }
    let v2 :=
      match new_status with
      | VisitStatus.in_progress => { v1 with consultation_start_time := some now }
      | VisitStatus.completed => { v1 with consultation_end_time := some now }
      | VisitStatus.cancelled => { v1 with cancellation_reason := status_data.cancellation_reason }
      | _ => v1
    Except.ok v2

/-- Persisted state after an `update_status` request: the session commits
only on success; a raised validation error aborts the request before any
field is written to the database, so the stored visit is unchanged. -/
def update_status_persisted (visit : Visit) (status_data : VisitStatusUpdate)
    (current_user : ℕ) (now : ℤ) : Visit :=
  match update_status visit status_data current_user now with
  | Except.ok w => w
  | Except.error _ => visit

/-- The `VisitService.cancel_visit` body: delegate to `update_status`
with target `CANCELLED` and the given reason. -/
def cancel_visit (visit : Visit) (reason : String) (current_user : ℕ) (now : ℤ) :
    Except UpdateError Visit :=
  update_status visit ⟨VisitStatus.cancelled, some reason⟩ current_user now

/-- The `VisitService.start_consultation` body: assign the doctor when
none is assigned yet, then delegate to `update_status` with target
`IN_PROGRESS`.  The doctor assignment is only committed together with the
successful status update (a raised error aborts the request before the
commit), so on failure the persisted visit keeps its previous doctor. -/
def start_consultation (visit : Visit) (doctor_id : ℕ) (current_user : ℕ) (now : ℤ) :
    Except UpdateError Visit :=
  let v1 :=
    if visit.assigned_doctor_id = none then
      { visit with assigned_doctor_id := some doctor_id }
    else visit
  update_status v1 ⟨VisitStatus.in_progress, none⟩ current_user now

/-- The `VisitService.complete_consultation` body: delegate to
`update_status` with target `COMPLETED`. -/
def complete_consultation (visit : Visit) (current_user : ℕ) (now : ℤ) :
    Except UpdateError Visit :=
  update_status visit ⟨VisitStatus.completed, none⟩ current_user now

/-- A freshly created visit (`VisitService.create_visit`): status
`REGISTERED`, `check_in_time = now`, optional doctor from the request,
consultation timestamps and cancellation reason unset. -/
def create_visit (check_in : ℤ) (doctor : Option ℕ) : Visit :=
  { status := VisitStatus.registered
    check_in_time := check_in
    consultation_start_time := none
    consultation_end_time := none
    cancellation_reason := none
    assigned_doctor_id := doctor
    updated_by := none }

/-- Visits reachable through the service operations: creation, status
updates, and doctor assignment.  The `assign` constructor covers both the
assignment made by `start_consultation` and doctor changes through the
general update.  Modelled from the spec: the `VisitUpdate` schema file
(`app/schemas/visit.py`) is not in the source tree; per §4.2 of the spec
the general update touches non-status fields only, and of the fields
modelled here that is the assigned doctor — it never writes the status,
the consultation timestamps or the cancellation reason. -/
inductive Reachable : Visit → Prop
  | create (t : ℤ) (d : Option ℕ) : Reachable (create_visit t d)
  | step {v : Visit} (sd : VisitStatusUpdate) (u : ℕ) (t : ℤ) {w : Visit} :
      Reachable v → update_status v sd u t = Except.ok w → Reachable w
  | assign {v : Visit} (d : ℕ) :
      Reachable v → Reachable { v with assigned_doctor_id := some d }

end VisitService

/-! ### `app/api/v1/visits/service.py` — `get_queue`

Only the fields its filters and ORDER BY touch are modelled; dates are
day numbers and check-in times epoch seconds. -/

structure QVisit where
  priority : Priority
  check_in_time : ℤ
  status : VisitStatus
  visit_date : ℤ
  is_deleted : Bool
  assigned_doctor_id : Option ℕ
  deriving DecidableEq, Repr

namespace VisitService

/-- The priority key of the ORDER BY `case` expression:
`EMERGENCY → 1`, `URGENT → 2`, `else → 3`. -/
def priorityRank : Priority → ℕ
  | Priority.emergency => 1
  | Priority.urgent => 2
  | _ => 3

/-- Comparison realising the two-key ORDER BY of `get_queue` and
`get_doctor_visits`: priority rank ascending, then `check_in_time`
ascending. -/
def queueLE (a b : QVisit) : Bool :=
  decide (priorityRank a.priority < priorityRank b.priority) ||
    (decide (priorityRank a.priority = priorityRank b.priority) &&
      decide (a.check_in_time ≤ b.check_in_time))

/-- The WHERE clauses of `get_queue`: today's non-deleted visits,
restricted to the requested status (default: `REGISTERED` or `WAITING`). -/
def queue_selection (visits : List QVisit) (today : ℤ)
    (status_filter : Option VisitStatus) : List QVisit :=
  let base := visits.filter fun (v : QVisit) => decide (v.visit_date = today) && !v.is_deleted
  match status_filter with
  | some st => base.filter fun (v : QVisit) => decide (v.status = st)
  | none =>
    base.filter fun (v : QVisit) =>
      decide (v.status = VisitStatus.registered) || decide (v.status = VisitStatus.waiting)

/-- The `VisitService.get_queue` body: the selected visits ordered by
priority rank then check-in time (the ORDER BY is realised as a
comparison sort with `queueLE`). -/
def get_queue (visits : List QVisit) (today : ℤ)
    (status_filter : Option VisitStatus) : List QVisit :=
  (queue_selection visits today status_filter).mergeSort queueLE

end VisitService

/-! ### `app/api/v1/visits/service.py` — `get_visit_stats` averages

Times are epoch seconds as rationals (SQL `extract('epoch', …)`); the
timestamp columns are nullable, whence the `Option`. -/

structure SVisit where
  visit_date : ℤ
  is_deleted : Bool
  status : VisitStatus
  visit_type : VisitType
  check_in_time : Option ℚ
  consultation_start_time : Option ℚ
  consultation_end_time : Option ℚ
  deriving DecidableEq

namespace VisitService

/-- Rounding to one decimal place (`round(x, 1)`). -/
def round1 (q : ℚ) : ℚ := (round (10 * q) : ℤ) / 10

/-- The `base_filter` of `get_visit_stats`: visit date within the range,
not deleted. -/
def inRange (dfrom dto : ℤ) (v : SVisit) : Bool :=
  decide (dfrom ≤ v.visit_date) && decide (v.visit_date ≤ dto) && !v.is_deleted

/-- Value of a timestamp known to be present (applied only under `isSome`
filters, mirroring SQL arithmetic on non-NULL rows). -/
def tval (o : Option ℚ) : ℚ := o.getD 0

/-- Rows entering the average-wait aggregate: in range with both
`check_in_time` and `consultation_start_time` non-NULL. -/
def waitQualifying (visits : List SVisit) (dfrom dto : ℤ) : List SVisit :=
  visits.filter fun v =>
    inRange dfrom dto v && v.check_in_time.isSome && v.consultation_start_time.isSome

/-- The SQL scalar `AVG(extract(epoch, start) - extract(epoch, check_in)) / 60`
over the qualifying rows: `NULL` (i.e. `none`) on an empty set, otherwise
the mean of the second differences divided by 60. -/
def avgWaitRaw (visits : List SVisit) (dfrom dto : ℤ) : Option ℚ :=
  if (waitQualifying visits dfrom dto).isEmpty then none
  else
    some ((((waitQualifying visits dfrom dto).map fun v =>
      tval v.consultation_start_time - tval v.check_in_time).sum
      / (waitQualifying visits dfrom dto).length) / 60)

/-- The `average_wait_time_minutes` response field:
`round(avg_wait, 1) if avg_wait else None` — the Python truthiness test
maps both the NULL aggregate and a zero average to `None`. -/
def average_wait_time_minutes (visits : List SVisit) (dfrom dto : ℤ) : Option ℚ :=
  match avgWaitRaw visits dfrom dto with
  | none => none
  | some a => if a = 0 then none else some (round1 a)

/-- Rows entering the average-consultation aggregate: in range with both
`consultation_start_time` and `consultation_end_time` non-NULL. -/
def consultQualifying (visits : List SVisit) (dfrom dto : ℤ) : List SVisit :=
  visits.filter fun v =>
    inRange dfrom dto v && v.consultation_start_time.isSome && v.consultation_end_time.isSome

/-- The SQL scalar `AVG(extract(epoch, end) - extract(epoch, start)) / 60`
over the qualifying rows. -/
def avgConsultRaw (visits : List SVisit) (dfrom dto : ℤ) : Option ℚ :=
  if (consultQualifying visits dfrom dto).isEmpty then none
  else
    some ((((consultQualifying visits dfrom dto).map fun v =>
      tval v.consultation_end_time - tval v.consultation_start_time).sum
      / (consultQualifying visits dfrom dto).length) / 60)

/-- The `average_consultation_minutes` response field:
`round(avg_duration, 1) if avg_duration else None`. -/
def average_consultation_minutes (visits : List SVisit) (dfrom dto : ℤ) : Option ℚ :=
  match avgConsultRaw visits dfrom dto with
  | none => none
  | some a => if a = 0 then none else some (round1 a)

end VisitService

/-- The claim's average-wait value, written from the claim's words for
comparison with the implementation: the mean, over exactly the qualifying
visits, of `(consultation_start_time - check_in_time)` expressed in
minutes. -/
def specMeanWaitMinutes (visits : List SVisit) (dfrom dto : ℤ) : ℚ :=
  ((VisitService.waitQualifying visits dfrom dto).map fun v =>
    (VisitService.tval v.consultation_start_time - VisitService.tval v.check_in_time) / 60).sum
    / (VisitService.waitQualifying visits dfrom dto).length

/-- The claim's average-consultation value, written from the claim's
words: the mean, over exactly the qualifying visits, of
`(consultation_end_time - consultation_start_time)` in minutes. -/
def specMeanConsultMinutes (visits : List SVisit) (dfrom dto : ℤ) : ℚ :=
  ((VisitService.consultQualifying visits dfrom dto).map fun v =>
    (VisitService.tval v.consultation_end_time - VisitService.tval v.consultation_start_time) / 60).sum
    / (VisitService.consultQualifying visits dfrom dto).length

/-- A waiting visit, as produced by moving a fresh visit to `WAITING`
(used to instantiate theorems at concrete inputs). -/
def sampleWaiting : Visit :=
  { status := VisitStatus.waiting, check_in_time := 0, consultation_start_time := none, consultation_end_time := none, cancellation_reason := none, assigned_doctor_id := none, updated_by := some 9 }

/-- A completed visit (used to instantiate theorems at concrete inputs). -/
def sampleCompleted : Visit :=
  { status := VisitStatus.completed, check_in_time := 0, consultation_start_time := some 1, consultation_end_time := some 3, cancellation_reason := none, assigned_doctor_id := none, updated_by := some 9 }

end EHR

/-! ## Helper lemmas -/

/-- Filtering a `replicate` by a predicate the element satisfies keeps the
whole list. -/
theorem EHR.filter_replicate_of_pos {α : Type} (p : α → Bool) (a : α) (h : p a = true)
    (n : ℕ) : (List.replicate n a).filter p = List.replicate n a := by
  induction n with
  | zero => rfl
  | succ k ih => simp [List.replicate_succ, List.filter_cons, h, ih]

/-! ## Claims about the sequence generator -/

/-- C1: the claim asserts that N concurrent `generate` calls for the same
class and year return pairwise distinct identifiers.  The code computes
`count + 1` from a `SELECT COUNT` read, so in the interleaving where both
calls read before either commits (schedule read₁, read₂, commit₁,
commit₂, starting from an empty store for year 2026) both calls return
the identifier `VIS-2026-00001`: the identifiers are equal, not distinct.
The serialized schedule (read₁, commit₁, read₂, commit₂) does return
distinct identifiers, confirming that the duplication comes from the
interleaving and not from the model. -/
theorem EHR.VisitNumberGenerator.generate_race_duplicate :
    (EHR.VisitNumberGenerator.runTwo 2026 [] [true, false, true, false]).r1 =
      some "VIS-2026-00001".toList ∧
    (EHR.VisitNumberGenerator.runTwo 2026 [] [true, false, true, false]).r2 =
      some "VIS-2026-00001".toList ∧
    (EHR.VisitNumberGenerator.runTwo 2026 [] [true, false, true, false]).r1 =
      (EHR.VisitNumberGenerator.runTwo 2026 [] [true, false, true, false]).r2 ∧
    (EHR.VisitNumberGenerator.runTwo 2026 [] [true, true, false, false]).r1 =
      some "VIS-2026-00001".toList ∧
    (EHR.VisitNumberGenerator.runTwo 2026 [] [true, true, false, false]).r2 =
      some "VIS-2026-00002".toList := by
  decide

/-- C3: the claim asserts that once sequence 99999 has been issued for a
class and year, the next generation request fails with `CapacityExceeded`.
The code has no capacity check at all: with 99999 identifiers of year 2026
already stored, `generate` returns `VIS-2026-100000` — an identifier whose
sequence part does not fit in five digits and which the module's own
`validate` rejects — instead of failing. -/
theorem EHR.VisitNumberGenerator.generate_past_capacity_overflows :
    EHR.VisitNumberGenerator.generate
        (List.replicate 99999 (EHR.VisitNumberGenerator.formatNumber 2026 1)) 2026 =
      "VIS-2026-100000".toList ∧
    EHR.VisitNumberGenerator.validate "VIS-2026-100000".toList = false := by
  constructor
  · have h := EHR.filter_replicate_of_pos
      (fun s => EHR.VisitNumberGenerator.startsWithChars
        (EHR.VisitNumberGenerator.yearPattern 2026) s)
      (EHR.VisitNumberGenerator.formatNumber 2026 1) (by decide) 99999
    unfold EHR.VisitNumberGenerator.generate
    rw [h, List.length_replicate]
    decide
  · decide

/-! ## Digit and split lemmas for the identifier format -/

namespace EHR

theorem charVal_digitChar {d : ℕ} (h : d < 10) : charVal (digitChar d) = d := by
  interval_cases d <;> decide

theorem isDigitChar_digitChar {d : ℕ} (h : d < 10) : isDigitChar (digitChar d) = true := by
  interval_cases d <;> decide

theorem mem_toRevDigitsAux_lt : ∀ (f n d : ℕ), d ∈ toRevDigitsAux f n → d < 10 := by
  intro f
  induction f with
  | zero => intro n d h; simp [toRevDigitsAux] at h
  | succ k ih =>
    intro n d h
    by_cases hn : n = 0
    · simp [toRevDigitsAux, hn] at h
    · simp only [toRevDigitsAux, if_neg hn, List.mem_cons] at h
      rcases h with h | h
      · subst h; exact Nat.mod_lt _ (by omega)
      · exact ih _ _ h

theorem digitsToNat_append_singleton (a : List Char) (c : Char) :
    digitsToNat (a ++ [c]) = 10 * digitsToNat a + charVal c := by
  simp [digitsToNat, List.foldl_append]

theorem digitsToNat_toRevDigitsAux : ∀ (f n : ℕ), n ≤ f →
    digitsToNat ((toRevDigitsAux f n).reverse.map digitChar) = n := by
  intro f
  induction f with
  | zero =>
    intro n h
    have : n = 0 := by omega
    subst this
    rfl
  | succ k ih =>
    intro n h
    by_cases hn : n = 0
    · subst hn; rfl
    · have hle : n / 10 ≤ k := by omega
      simp only [toRevDigitsAux, if_neg hn, List.reverse_cons, List.map_append,
        List.map_cons, List.map_nil]
      rw [digitsToNat_append_singleton, ih _ hle, charVal_digitChar (Nat.mod_lt _ (by omega))]
      omega

theorem all_isDigitChar_natToChars (n : ℕ) : (natToChars n).all isDigitChar = true := by
  by_cases hn : n = 0
  · subst hn; decide
  · simp only [natToChars, if_neg hn, List.all_eq_true]
    intro c hc
    simp only [List.mem_map, List.mem_reverse] at hc
    obtain ⟨d, hd, rfl⟩ := hc
    exact isDigitChar_digitChar (mem_toRevDigitsAux_lt _ _ _ hd)

theorem natToChars_ne_nil (n : ℕ) : natToChars n ≠ [] := by
  by_cases hn : n = 0
  · subst hn; decide
  · simp only [natToChars, if_neg hn]
    have : toRevDigitsAux n n ≠ [] := by
      match n, hn with
      | m + 1, _ => simp [toRevDigitsAux]
    simp [toRevDigits, this]

theorem digitsToNat_natToChars (n : ℕ) : digitsToNat (natToChars n) = n := by
  by_cases hn : n = 0
  · subst hn; decide
  · simp only [natToChars, if_neg hn, toRevDigits]
    exact digitsToNat_toRevDigitsAux n n le_rfl

theorem parseNatChars_natToChars (n : ℕ) : parseNatChars (natToChars n) = some n := by
  simp [parseNatChars, natToChars_ne_nil n, all_isDigitChar_natToChars n,
    digitsToNat_natToChars n]

theorem digitsToNat_replicate_zero (k : ℕ) (cs : List Char) :
    digitsToNat (List.replicate k '0' ++ cs) = digitsToNat cs := by
  induction k with
  | zero => rfl
  | succ m ih =>
    simp only [List.replicate_succ, List.cons_append]
    simpa [digitsToNat] using ih

theorem parseNatChars_pad5_natToChars (n : ℕ) : parseNatChars (pad5 (natToChars n)) = some n := by
  have hall : (pad5 (natToChars n)).all isDigitChar = true := by
    simp only [pad5, List.all_append, Bool.and_eq_true]
    refine ⟨?_, all_isDigitChar_natToChars n⟩
    have h0 : isDigitChar '0' = true := by decide
    simp [List.all_eq_true, h0]
  have hne : pad5 (natToChars n) ≠ [] := by
    simp only [pad5]
    intro h
    rcases List.append_eq_nil.mp h with ⟨_, h2⟩
    exact natToChars_ne_nil n h2
  unfold parseNatChars
  rw [if_pos (And.intro hne hall)]
  simp [pad5, digitsToNat_replicate_zero, digitsToNat_natToChars n]

namespace VisitNumberGenerator

theorem splitDash_ne_nil (cs : List Char) : splitDash cs ≠ [] := by
  cases cs with
  | nil => simp [splitDash]
  | cons c rest =>
    simp only [splitDash]
    by_cases h : c = '-'
    · simp [h]
    · simp only [if_neg h]
      cases splitDash rest <;> simp

theorem splitDash_no_dash (cs : List Char) (h : ∀ c ∈ cs, c ≠ '-') :
    splitDash cs = [cs] := by
  induction cs with
  | nil => rfl
  | cons c rest ih =>
    have hc : c ≠ '-' := h c (List.mem_cons_self c rest)
    have hr : splitDash rest = [rest] := ih fun x hx => h x (List.mem_cons_of_mem c hx)
    simp [splitDash, hc, hr]

theorem splitDash_append (a b : List Char) (h : ∀ c ∈ a, c ≠ '-') :
    splitDash (a ++ '-' :: b) = a :: splitDash b := by
  induction a with
  | nil => simp [splitDash]
  | cons c rest ih =>
    have hc : c ≠ '-' := h c (List.mem_cons_self c rest)
    have hr := ih fun x hx => h x (List.mem_cons_of_mem c hx)
    simp [splitDash, hc, hr]

theorem no_dash_of_all_digit (cs : List Char) (h : cs.all isDigitChar = true) :
    ∀ c ∈ cs, c ≠ '-' := by
  intro c hc heq
  rw [List.all_eq_true] at h
  have := h c hc
  subst heq
  simp [isDigitChar] at this

theorem splitDash_formatNumber (y n : ℕ) :
    splitDash (formatNumber y n) = [pfx, natToChars y, pad5 (natToChars n)] := by
  have hy : ∀ c ∈ natToChars y, c ≠ '-' :=
    no_dash_of_all_digit _ (all_isDigitChar_natToChars y)
  have hq : ∀ c ∈ pad5 (natToChars n), c ≠ '-' := by
    intro c hc
    simp only [pad5, List.mem_append] at hc
    rcases hc with hc | hc
    · rw [List.eq_of_mem_replicate hc]; decide
    · exact no_dash_of_all_digit _ (all_isDigitChar_natToChars n) c hc
  have hpfx : ∀ c ∈ pfx, c ≠ '-' := by decide
  have h1 : splitDash (pfx ++ '-' :: (natToChars y ++ '-' :: pad5 (natToChars n))) =
      pfx :: splitDash (natToChars y ++ '-' :: pad5 (natToChars n)) :=
    splitDash_append _ _ hpfx
  have h2 : splitDash (natToChars y ++ '-' :: pad5 (natToChars n)) =
      natToChars y :: splitDash (pad5 (natToChars n)) :=
    splitDash_append _ _ hy
  have h3 : splitDash (pad5 (natToChars n)) = [pad5 (natToChars n)] :=
    splitDash_no_dash _ hq
  show splitDash (pfx ++ '-' :: (natToChars y ++ '-' :: pad5 (natToChars n))) = _
  rw [h1, h2, h3]

theorem formatNumber_ne_nil (y n : ℕ) : formatNumber y n ≠ [] := by
  simp [formatNumber, pfx]

theorem validate_formatNumber (y n : ℕ) (hy1 : 2020 ≤ y) (hy2 : y ≤ 2100)
    (hn1 : 1 ≤ n) (hn2 : n ≤ 99999) :
    validate (formatNumber y n) = true := by
  unfold validate
  rw [if_neg (formatNumber_ne_nil y n), splitDash_formatNumber]
  show validateParts pfx (natToChars y) (pad5 (natToChars n)) = true
  unfold validateParts
  rw [parseNatChars_natToChars, parseNatChars_pad5_natToChars, if_neg (by simp)]
  show (if y < 2020 ∨ 2100 < y then false
    else if n < 1 ∨ 99999 < n then false else true) = true
  rw [if_neg (by omega), if_neg (by omega)]

theorem parse_formatNumber (y n : ℕ) (hy1 : 2020 ≤ y) (hy2 : y ≤ 2100)
    (hn1 : 1 ≤ n) (hn2 : n ≤ 99999) :
    parse (formatNumber y n) = some ⟨pfx, y, n⟩ := by
  unfold parse
  rw [if_pos (validate_formatNumber y n hy1 hy2 hn1 hn2), splitDash_formatNumber]
  show parseParts pfx (natToChars y) (pad5 (natToChars n)) = _
  unfold parseParts
  rw [parseNatChars_natToChars, parseNatChars_pad5_natToChars]

theorem validateParts_true_elim (p y q : List Char) (hv : validateParts p y q = true) :
    ∃ yn qn, parseNatChars y = some yn ∧ parseNatChars q = some qn := by
  unfold validateParts at hv
  split at hv
  · simp at hv
  · split at hv
    · simp at hv
    · next yn hyn =>
      split at hv
      · simp at hv
      · split at hv
        · simp at hv
        · next qn hqn => exact ⟨yn, qn, hyn, hqn⟩

theorem parse_none_iff_validate_false (s : List Char) :
    parse s = none ↔ validate s = false := by
  constructor
  · intro h
    by_contra hvne
    rw [Bool.not_eq_false] at hvne
    unfold parse at h
    rw [if_pos hvne] at h
    unfold validate at hvne
    split at hvne
    · simp at hvne
    · split at hvne
      · next p y q hsplit =>
        obtain ⟨yn, qn, hyn, hqn⟩ := validateParts_true_elim p y q hvne
        rw [hsplit] at h
        have h2 : parseParts p y q = none := h
        unfold parseParts at h2
        rw [hyn, hqn] at h2
        simp at h2
      · simp at hvne
  · intro h
    unfold parse
    rw [if_neg (by simp [h])]

/-- C10: for every year `y` in 2020–2100 and sequence `n` in 1–99999,
parsing the formatted identifier `VIS-y-n` (with `n` zero-padded to five
digits) succeeds and returns prefix `VIS`, year `y` and sequence `n`; and
`parse` raises `ValueError` (returns `none` here) exactly on the strings
that `validate` rejects. -/
theorem format_parse_roundtrip :
    (∀ y n : ℕ, 2020 ≤ y → y ≤ 2100 → 1 ≤ n → n ≤ 99999 →
      parse (formatNumber y n) = some ⟨pfx, y, n⟩) ∧
    (∀ s : List Char, parse s = none ↔ validate s = false) :=
  ⟨fun y n hy1 hy2 hn1 hn2 => parse_formatNumber y n hy1 hy2 hn1 hn2,
   fun s => parse_none_iff_validate_false s⟩

/-- Witness for C10 at year 2026, sequence 42. -/
theorem format_parse_roundtrip_witness :
    (2020 ≤ 2026 ∧ 2026 ≤ 2100 ∧ 1 ≤ 42 ∧ 42 ≤ 99999) ∧
    parse (formatNumber 2026 42) = some ⟨pfx, 2026, 42⟩ :=
  ⟨by decide,
   format_parse_roundtrip.1 2026 42 (by decide) (by decide) (by decide) (by decide)⟩

end VisitNumberGenerator

end EHR

/-! ## Lemmas and claims about the status state machine -/

namespace EHR

/-- Characterisation of a successful `update_status`: the transition was
allowed, the status and `updated_by` are set, and the three
status-dependent fields change exactly according to the target status. -/
theorem update_status_ok_elim {v : Visit} {sd : VisitStatusUpdate} {u : ℕ} {t : ℤ} {w : Visit}
    (h : VisitService.update_status v sd u t = Except.ok w) :
    VisitService.validate_status_transition v.status sd.status = true ∧
    w.status = sd.status ∧
    w.check_in_time = v.check_in_time ∧
    w.consultation_start_time =
      (if sd.status = VisitStatus.in_progress then some t else v.consultation_start_time) ∧
    w.consultation_end_time =
      (if sd.status = VisitStatus.completed then some t else v.consultation_end_time) ∧
    w.cancellation_reason =
      (if sd.status = VisitStatus.cancelled then sd.cancellation_reason
        else v.cancellation_reason) ∧
    w.assigned_doctor_id = v.assigned_doctor_id := by
  rcases v with ⟨vs, vci, vcs, vce, vcr, vad, vub⟩
  rcases sd with ⟨ns, rs⟩
  cases vs <;> cases ns
  all_goals simp [VisitService.update_status, VisitService.validate_status_transition,
    ALLOWED_STATUS_TRANSITIONS] at h
  all_goals (try split at h)
  all_goals (try simp at h)
  all_goals (cases h; simp)
  all_goals decide

end EHR

namespace EHR

/-- An invalid transition always yields the `invalidTransition` error. -/
theorem update_status_error_of_invalid {v : Visit} {sd : VisitStatusUpdate} {u : ℕ} {t : ℤ}
    (hv : VisitService.validate_status_transition v.status sd.status = false) :
    VisitService.update_status v sd u t = Except.error UpdateError.invalidTransition := by
  simp [VisitService.update_status, hv]

/-- No status may transition to itself. -/
theorem validate_self_false (s : VisitStatus) :
    VisitService.validate_status_transition s s = false := by
  cases s <;> decide

/-- Terminal statuses have no allowed targets. -/
theorem validate_terminal_false (s target : VisitStatus)
    (h : s = VisitStatus.completed ∨ s = VisitStatus.cancelled) :
    VisitService.validate_status_transition s target = false := by
  rcases h with rfl | rfl <;> cases target <;> decide

/-- No status may transition to `registered`. -/
theorem validate_to_registered_false (s : VisitStatus) :
    VisitService.validate_status_transition s VisitStatus.registered = false := by
  cases s <;> decide

/-- `waiting` is only reachable from `registered`. -/
theorem validate_to_waiting (s : VisitStatus)
    (h : VisitService.validate_status_transition s VisitStatus.waiting = true) :
    s = VisitStatus.registered := by
  cases s
  all_goals revert h
  all_goals decide

/-- `in_progress` is only reachable from `waiting`. -/
theorem validate_to_in_progress (s : VisitStatus)
    (h : VisitService.validate_status_transition s VisitStatus.in_progress = true) :
    s = VisitStatus.waiting := by
  cases s
  all_goals revert h
  all_goals decide

/-- C2, counterexample: the claim says the status update succeeds exactly
when the pair (current, target) is in the transition table.  For a fresh
registered visit and target `cancelled` with no reason supplied, the pair
is in the table, yet the request fails (with `MissingReason`): the "exactly
when" direction is false. -/
theorem update_status_success_iff_table_cex :
    ¬ (((VisitService.update_status (VisitService.create_visit 0 none)
          ⟨VisitStatus.cancelled, none⟩ 1 0).isOk = true) ↔
        VisitService.validate_status_transition VisitStatus.registered
          VisitStatus.cancelled = true) := by
  decide

/-- C2, amended: the status update succeeds exactly when the pair
(current, target) is in the transition table and, when the target is
`cancelled`, a non-empty cancellation reason is supplied; any request
whose target is absent from the table for the current status fails with
`InvalidTransition`, including self-transitions and any transition out of
the terminal statuses `completed` and `cancelled`. -/
theorem update_status_success_iff (v : Visit) (sd : VisitStatusUpdate) (u : ℕ) (t : ℤ) :
    ((VisitService.update_status v sd u t).isOk = true ↔
      (VisitService.validate_status_transition v.status sd.status = true ∧
        (sd.status = VisitStatus.cancelled → reasonAbsent sd.cancellation_reason = false))) ∧
    (VisitService.validate_status_transition v.status sd.status = false →
      VisitService.update_status v sd u t = Except.error UpdateError.invalidTransition) ∧
    (sd.status = v.status →
      VisitService.update_status v sd u t = Except.error UpdateError.invalidTransition) ∧
    ((v.status = VisitStatus.completed ∨ v.status = VisitStatus.cancelled) →
      VisitService.update_status v sd u t = Except.error UpdateError.invalidTransition) := by
  refine ⟨?_, ?_, ?_, ?_⟩
  · rcases v with ⟨vs, vci, vcs, vce, vcr, vad, vub⟩
    rcases sd with ⟨ns, rs⟩
    cases vs <;> cases ns <;>
      simp [VisitService.update_status, VisitService.validate_status_transition,
        ALLOWED_STATUS_TRANSITIONS, Except.isOk, Except.toBool] <;>
      (try (cases hr : reasonAbsent rs <;> simp [hr]))
  · intro hval
    exact update_status_error_of_invalid hval
  · intro hself
    apply update_status_error_of_invalid
    rw [hself]
    exact validate_self_false v.status
  · intro hterm
    exact update_status_error_of_invalid (validate_terminal_false _ _ hterm)

/-- Witness for the amended C2 at a completed visit. -/
theorem update_status_success_iff_witness :
    (sampleCompleted.status = VisitStatus.completed ∨
      sampleCompleted.status = VisitStatus.cancelled) ∧
    VisitService.update_status sampleCompleted ⟨VisitStatus.waiting, none⟩ 1 0 =
      Except.error UpdateError.invalidTransition :=
  ⟨Or.inl rfl,
   (update_status_success_iff sampleCompleted ⟨VisitStatus.waiting, none⟩ 1 0).2.2.2
     (Or.inl rfl)⟩

/-- C9: for a visit in a terminal status, requesting the `cancelled`
status with no reason supplied fails with `InvalidTransition`, not
`MissingReason`: the transition check runs before the reason check. -/
theorem terminal_cancel_without_reason_invalid (v : Visit) (u : ℕ) (t : ℤ)
    (h : v.status = VisitStatus.completed ∨ v.status = VisitStatus.cancelled) :
    VisitService.update_status v ⟨VisitStatus.cancelled, none⟩ u t =
      Except.error UpdateError.invalidTransition :=
  update_status_error_of_invalid (validate_terminal_false _ _ h)

/-- Witness for C9 at a completed visit. -/
theorem terminal_cancel_without_reason_invalid_witness :
    (sampleCompleted.status = VisitStatus.completed ∨
      sampleCompleted.status = VisitStatus.cancelled) ∧
    VisitService.update_status sampleCompleted ⟨VisitStatus.cancelled, none⟩ 4 9 =
      Except.error UpdateError.invalidTransition :=
  ⟨Or.inl rfl,
   terminal_cancel_without_reason_invalid sampleCompleted 4 9 (Or.inl rfl)⟩

/-- C5: from any visit whose current status allows cancelling, a
cancellation request with no reason or an empty reason fails with
`MissingReason` and leaves the persisted visit unchanged; a request with
a non-empty reason succeeds and stores exactly that reason. -/
theorem cancel_reason_required (v : Visit) (u : ℕ) (t : ℤ) (r : String)
    (hv : VisitService.validate_status_transition v.status VisitStatus.cancelled = true) :
    VisitService.update_status v ⟨VisitStatus.cancelled, none⟩ u t =
      Except.error UpdateError.missingReason ∧
    VisitService.update_status_persisted v ⟨VisitStatus.cancelled, none⟩ u t = v ∧
    VisitService.update_status v ⟨VisitStatus.cancelled, some ""⟩ u t =
      Except.error UpdateError.missingReason ∧
    VisitService.update_status_persisted v ⟨VisitStatus.cancelled, some ""⟩ u t = v ∧
    (r ≠ "" → ∃ w, VisitService.cancel_visit v r u t = Except.ok w ∧
      w.cancellation_reason = some r ∧ w.status = VisitStatus.cancelled) := by
  have h1 : VisitService.update_status v ⟨VisitStatus.cancelled, none⟩ u t =
      Except.error UpdateError.missingReason := by
    simp [VisitService.update_status, hv, reasonAbsent]
  have h2 : VisitService.update_status v ⟨VisitStatus.cancelled, some ""⟩ u t =
      Except.error UpdateError.missingReason := by
    simp [VisitService.update_status, hv, reasonAbsent]
  refine ⟨h1, ?_, h2, ?_, ?_⟩
  · simp [VisitService.update_status_persisted, h1]
  · simp [VisitService.update_status_persisted, h2]
  · intro hr
    have hra : reasonAbsent (some r) = false := by simp [reasonAbsent, hr]
    refine ⟨{ v with status := VisitStatus.cancelled, updated_by := some u, cancellation_reason := some r }, ?_, by simp, by simp⟩
    simp [VisitService.cancel_visit, VisitService.update_status, hv, hra]

/-- Witness for C5 at a fresh registered visit with reason `"left"`. -/
theorem cancel_reason_required_witness :
    (VisitService.validate_status_transition
      (VisitService.create_visit 0 none).status VisitStatus.cancelled = true) ∧
    VisitService.update_status (VisitService.create_visit 0 none)
        ⟨VisitStatus.cancelled, none⟩ 1 2 = Except.error UpdateError.missingReason ∧
    ("left" ≠ "" → ∃ w, VisitService.cancel_visit (VisitService.create_visit 0 none) "left" 1 2 =
      Except.ok w ∧ w.cancellation_reason = some "left" ∧ w.status = VisitStatus.cancelled) :=
  ⟨by decide,
   (cancel_reason_required (VisitService.create_visit 0 none) 1 2 "left" (by decide)).1,
   (cancel_reason_required (VisitService.create_visit 0 none) 1 2 "left" (by decide)).2.2.2.2⟩

end EHR

namespace EHR

/-- Invariant: every visit reachable through the service operations that
is still `registered` or `waiting` has no consultation start time — the
only write to `consultation_start_time` happens on entering
`in_progress`, from which neither `registered` nor `waiting` can be
re-entered. -/
theorem reachable_pre_start_none {v : Visit} (h : VisitService.Reachable v) :
    (v.status = VisitStatus.registered ∨ v.status = VisitStatus.waiting) →
    v.consultation_start_time = none := by
  induction h with
  | create t d =>
    intro _
    simp [VisitService.create_visit]
  | step sd u t hv hok ih =>
    intro hs
    obtain ⟨hval, hstat, hci, hcs, hce, hcr, had⟩ := update_status_ok_elim hok
    rcases hs with hs | hs
    · rw [hstat] at hs
      rw [hs, validate_to_registered_false] at hval
      exact absurd hval (by simp)
    · rw [hstat] at hs
      rw [hs] at hval
      rw [hcs, if_neg (by simp [hs])]
      exact ih (Or.inl (validate_to_waiting _ hval))
  | assign d hv ih =>
    intro hs
    simpa using ih (by simpa using hs)

/-- C4: on every reachable visit on which a status transition succeeds,
entering `in_progress` sets `consultation_start_time` to the current time
with the field previously unset (so the write never overwrites a value);
entering `completed` sets `consultation_end_time` to the current time;
entering `cancelled` records the supplied cancellation reason; and the
transition to `waiting` — the only other possible successful transition —
touches none of the three fields.  Each clause also records that the
other two fields are untouched. -/
theorem status_update_side_effects {v : Visit} (sd : VisitStatusUpdate) (u : ℕ) (t : ℤ)
    {w : Visit} (hr : VisitService.Reachable v)
    (hok : VisitService.update_status v sd u t = Except.ok w) :
    (sd.status = VisitStatus.in_progress →
      v.consultation_start_time = none ∧ w.consultation_start_time = some t ∧
      w.consultation_end_time = v.consultation_end_time ∧
      w.cancellation_reason = v.cancellation_reason) ∧
    (sd.status = VisitStatus.completed →
      w.consultation_end_time = some t ∧
      w.consultation_start_time = v.consultation_start_time ∧
      w.cancellation_reason = v.cancellation_reason) ∧
    (sd.status = VisitStatus.cancelled →
      w.cancellation_reason = sd.cancellation_reason ∧
      w.consultation_start_time = v.consultation_start_time ∧
      w.consultation_end_time = v.consultation_end_time) ∧
    (sd.status = VisitStatus.waiting →
      w.consultation_start_time = v.consultation_start_time ∧
      w.consultation_end_time = v.consultation_end_time ∧
      w.cancellation_reason = v.cancellation_reason) := by
  obtain ⟨hval, hstat, hci, hcs, hce, hcr, had⟩ := update_status_ok_elim hok
  refine ⟨?_, ?_, ?_, ?_⟩
  · intro h
    rw [h] at hval hcs hce hcr
    have hw : v.status = VisitStatus.waiting := validate_to_in_progress _ hval
    refine ⟨reachable_pre_start_none hr (Or.inr hw), ?_, ?_, ?_⟩
    · rw [hcs]; simp
    · rw [hce]; simp
    · rw [hcr]; simp
  · intro h
    rw [h] at hcs hce hcr
    exact ⟨by rw [hce]; simp, by rw [hcs]; simp, by rw [hcr]; simp⟩
  · intro h
    rw [h] at hcs hce hcr
    exact ⟨by rw [hcr]; simp, by rw [hcs]; simp, by rw [hce]; simp⟩
  · intro h
    rw [h] at hcs hce hcr
    exact ⟨by rw [hcs]; simp, by rw [hce]; simp, by rw [hcr]; simp⟩

/-- Witness for C4: a reachable waiting visit moved to `in_progress` at
time 6. -/
theorem status_update_side_effects_witness :
    VisitService.update_status sampleWaiting ⟨VisitStatus.in_progress, none⟩ 9 6 =
      Except.ok { sampleWaiting with
        status := VisitStatus.in_progress, consultation_start_time := some 6 } ∧
    (sampleWaiting.consultation_start_time = none ∧
      ({ sampleWaiting with
        status := VisitStatus.in_progress,
        consultation_start_time := some 6 } : Visit).consultation_start_time = some 6 ∧
      ({ sampleWaiting with
        status := VisitStatus.in_progress,
        consultation_start_time := some 6 } : Visit).consultation_end_time =
        sampleWaiting.consultation_end_time ∧
      ({ sampleWaiting with
        status := VisitStatus.in_progress,
        consultation_start_time := some 6 } : Visit).cancellation_reason =
        sampleWaiting.cancellation_reason) := by
  have hreach : VisitService.Reachable sampleWaiting :=
    VisitService.Reachable.step ⟨VisitStatus.waiting, none⟩ 9 5
      (VisitService.Reachable.create 0 none) (by rfl)
  exact ⟨by rfl,
    (status_update_side_effects ⟨VisitStatus.in_progress, none⟩ 9 6 hreach (by rfl)).1 rfl⟩

/-- `update_status` to `in_progress` is oblivious to the assigned doctor:
assigning a doctor first commutes with the update. -/
theorem update_status_in_progress_assign (v : Visit) (d : ℕ) (u : ℕ) (t : ℤ) :
    VisitService.update_status { v with assigned_doctor_id := some d }
        ⟨VisitStatus.in_progress, none⟩ u t =
      Except.map (fun w => { w with assigned_doctor_id := some d })
        (VisitService.update_status v ⟨VisitStatus.in_progress, none⟩ u t) := by
  rcases v with ⟨vs, vci, vcs, vce, vcr, vad, vub⟩
  cases vs <;> rfl

end EHR

namespace EHR

/-- C8: `start_consultation` performs exactly the transition to
`in_progress` (and `complete_consultation` exactly the transition to
`completed`), succeeding and failing precisely when the general status
update does and with the same error; in addition `start_consultation`
assigns the supplied doctor if and only if no doctor is assigned yet — an
existing assignment is never overwritten — and otherwise produces exactly
the visit the general status update produces. -/
theorem start_complete_wrap (v : Visit) (d u : ℕ) (t : ℤ) :
    ((VisitService.start_consultation v d u t).isOk =
      (VisitService.update_status v ⟨VisitStatus.in_progress, none⟩ u t).isOk) ∧
    (∀ e, VisitService.start_consultation v d u t = Except.error e ↔
      VisitService.update_status v ⟨VisitStatus.in_progress, none⟩ u t = Except.error e) ∧
    (∀ w, VisitService.start_consultation v d u t = Except.ok w →
      w.assigned_doctor_id =
        (if v.assigned_doctor_id = none then some d else v.assigned_doctor_id) ∧
      ∀ w2, VisitService.update_status v ⟨VisitStatus.in_progress, none⟩ u t = Except.ok w2 →
        w = { w2 with assigned_doctor_id :=
          if v.assigned_doctor_id = none then some d else v.assigned_doctor_id }) ∧
    VisitService.complete_consultation v u t =
      VisitService.update_status v ⟨VisitStatus.completed, none⟩ u t := by
  by_cases had : v.assigned_doctor_id = none
  · have hstart : VisitService.start_consultation v d u t =
        Except.map (fun w => { w with assigned_doctor_id := some d })
          (VisitService.update_status v ⟨VisitStatus.in_progress, none⟩ u t) := by
      unfold VisitService.start_consultation
      rw [if_pos had, update_status_in_progress_assign]
    refine ⟨?_, ?_, ?_, rfl⟩
    · rw [hstart]
      cases VisitService.update_status v ⟨VisitStatus.in_progress, none⟩ u t <;> rfl
    · intro e
      rw [hstart]
      cases VisitService.update_status v ⟨VisitStatus.in_progress, none⟩ u t <;>
        simp [Except.map]
    · intro w hw
      rw [hstart] at hw
      cases hu : VisitService.update_status v ⟨VisitStatus.in_progress, none⟩ u t with
      | error e =>
        rw [hu] at hw
        simp [Except.map] at hw
      | ok w1 =>
        rw [hu] at hw
        simp only [Except.map, Except.ok.injEq] at hw
        subst hw
        refine ⟨by simp [had], ?_⟩
        intro w2 hw2
        injection hw2 with hww
        subst hww
        simp [had]
  · have hstart : VisitService.start_consultation v d u t =
        VisitService.update_status v ⟨VisitStatus.in_progress, none⟩ u t := by
      unfold VisitService.start_consultation
      rw [if_neg had]
    refine ⟨by rw [hstart], fun e => by rw [hstart], ?_, rfl⟩
    intro w hw
    rw [hstart] at hw
    obtain ⟨hval, hstat, hci, hcs, hce, hcr, hadoc⟩ := update_status_ok_elim hw
    refine ⟨by rw [hadoc, if_neg had], ?_⟩
    intro w2 hw2
    rw [hw] at hw2
    injection hw2 with hww
    subst hww
    rw [if_neg had, ← hadoc]

/-- Witness for C8: starting the consultation on a waiting visit with no
assigned doctor, doctor 7, at time 6. -/
theorem start_complete_wrap_witness :
    VisitService.start_consultation sampleWaiting 7 9 6 =
      Except.ok { sampleWaiting with
        status := VisitStatus.in_progress, consultation_start_time := some 6,
        assigned_doctor_id := some 7 } ∧
    VisitService.update_status sampleWaiting ⟨VisitStatus.in_progress, none⟩ 9 6 =
      Except.ok { sampleWaiting with
        status := VisitStatus.in_progress, consultation_start_time := some 6 } ∧
    ({ sampleWaiting with
        status := VisitStatus.in_progress, consultation_start_time := some 6,
        assigned_doctor_id := some 7 } : Visit).assigned_doctor_id =
      (if sampleWaiting.assigned_doctor_id = none then some 7
        else sampleWaiting.assigned_doctor_id) ∧
    ({ sampleWaiting with
        status := VisitStatus.in_progress, consultation_start_time := some 6,
        assigned_doctor_id := some 7 } : Visit) =
      { ({ sampleWaiting with
          status := VisitStatus.in_progress, consultation_start_time := some 6 } : Visit) with
        assigned_doctor_id :=
          if sampleWaiting.assigned_doctor_id = none then some 7
            else sampleWaiting.assigned_doctor_id } := by
  refine ⟨by rfl, by rfl, ?_, ?_⟩
  · exact ((start_complete_wrap sampleWaiting 7 9 6).2.2.1 _ (by rfl)).1
  · exact ((start_complete_wrap sampleWaiting 7 9 6).2.2.1 _ (by rfl)).2 _ (by rfl)

end EHR

namespace EHR

/-- The queue comparison is transitive. -/
theorem queueLE_trans (a b c : QVisit) (hab : VisitService.queueLE a b = true)
    (hbc : VisitService.queueLE b c = true) : VisitService.queueLE a c = true := by
  simp only [VisitService.queueLE, Bool.or_eq_true, Bool.and_eq_true,
    decide_eq_true_eq] at hab hbc ⊢
  rcases hab with h | ⟨h1, h2⟩ <;> rcases hbc with h' | ⟨h1', h2'⟩
  · exact Or.inl (by omega)
  · exact Or.inl (by omega)
  · exact Or.inl (by omega)
  · exact Or.inr ⟨by omega, le_trans h2 h2'⟩

/-- The queue comparison is total. -/
theorem queueLE_total (a b : QVisit) :
    (VisitService.queueLE a b || VisitService.queueLE b a) = true := by
  simp only [VisitService.queueLE, Bool.or_eq_true, Bool.and_eq_true, decide_eq_true_eq]
  rcases Nat.lt_trichotomy (VisitService.priorityRank a.priority)
      (VisitService.priorityRank b.priority) with h | h | h
  · exact Or.inl (Or.inl h)
  · rcases Int.le_total a.check_in_time b.check_in_time with hle | hle
    · exact Or.inl (Or.inr ⟨h, hle⟩)
    · exact Or.inr (Or.inr ⟨h.symm, hle⟩)
  · exact Or.inr (Or.inl h)

/-- C6: the queue is a permutation of the selected visits, sorted
lexicographically by (urgency rank, check-in time) — urgency rank
`emergency = 1 < urgent = 2 < normal = 3` ascending, check-in time
ascending within equal rank — and in particular no `normal`-priority
visit ever precedes an `emergency`-priority visit, regardless of their
check-in times. -/
theorem get_queue_sorted (visits : List QVisit) (today : ℤ) (sf : Option VisitStatus) :
    (VisitService.get_queue visits today sf).Perm (VisitService.queue_selection visits today sf) ∧
    List.Pairwise (fun a b =>
      VisitService.priorityRank a.priority < VisitService.priorityRank b.priority ∨
        (VisitService.priorityRank a.priority = VisitService.priorityRank b.priority ∧
          a.check_in_time ≤ b.check_in_time)) (VisitService.get_queue visits today sf) ∧
    List.Pairwise (fun a b =>
      ¬(a.priority = Priority.normal ∧ b.priority = Priority.emergency))
      (VisitService.get_queue visits today sf) := by
  have hsorted := @List.sorted_mergeSort QVisit VisitService.queueLE
    queueLE_trans
    (fun a b => queueLE_total a b)
    (VisitService.queue_selection visits today sf)
  have hsorted2 : List.Pairwise (fun a b =>
      VisitService.priorityRank a.priority < VisitService.priorityRank b.priority ∨
        (VisitService.priorityRank a.priority = VisitService.priorityRank b.priority ∧
          a.check_in_time ≤ b.check_in_time)) (VisitService.get_queue visits today sf) := by
    refine List.Pairwise.imp ?_ hsorted
    intro a b hab
    simpa [VisitService.queueLE, Bool.or_eq_true, Bool.and_eq_true,
      decide_eq_true_eq] using hab
  refine ⟨List.mergeSort_perm _ _, hsorted2, ?_⟩
  refine List.Pairwise.imp ?_ hsorted2
  intro a b hab
  rintro ⟨ha, hb⟩
  rw [ha, hb] at hab
  simp [VisitService.priorityRank] at hab

end EHR

namespace EHR

/-- Summing mapped values divided by a constant is the mapped sum divided
by the constant. -/
theorem sum_map_div {α : Type} (l : List α) (f : α → ℚ) (c : ℚ) :
    (l.map fun v => f v / c).sum = (l.map f).sum / c := by
  induction l with
  | nil => simp
  | cons a rest ih => simp [ih, add_div]

/-- C7, counterexample: the claim says the average-wait field is null if
and only if no visit qualifies.  A single in-range visit with
`check_in_time = consultation_start_time = 5` qualifies, yet the field is
null: the Python truthiness test `if avg_wait` maps the zero average to
`None`. -/
theorem average_wait_zero_cex :
    VisitService.waitQualifying
      [{ visit_date := 0, is_deleted := false, status := VisitStatus.in_progress, visit_type := VisitType.consultation, check_in_time := some 5, consultation_start_time := some 5, consultation_end_time := none }] 0 0 ≠ [] ∧
    VisitService.average_wait_time_minutes
      [{ visit_date := 0, is_deleted := false, status := VisitStatus.in_progress, visit_type := VisitType.consultation, check_in_time := some 5, consultation_start_time := some 5, consultation_end_time := none }] 0 0 = none := by
  constructor
  · decide
  · have hq : VisitService.waitQualifying
        [{ visit_date := 0, is_deleted := false, status := VisitStatus.in_progress, visit_type := VisitType.consultation, check_in_time := some 5, consultation_start_time := some 5, consultation_end_time := none }] 0 0 =
        [{ visit_date := 0, is_deleted := false, status := VisitStatus.in_progress, visit_type := VisitType.consultation, check_in_time := some 5, consultation_start_time := some 5, consultation_end_time := none }] := by
      decide
    unfold VisitService.average_wait_time_minutes VisitService.avgWaitRaw
    rw [hq]
    norm_num [VisitService.tval]

/-- C7, amended: the average-wait field is computed as the mean of
`(consultation_start_time - check_in_time)` in minutes over exactly the
visits in range that have both timestamps set, rounded to one decimal,
and is null if and only if no visit qualifies or that mean is exactly
zero (the truthiness check maps a zero average to null); the
average-consultation field is computed analogously from
`consultation_start_time` and `consultation_end_time`. -/
theorem average_fields_spec (visits : List SVisit) (dfrom dto : ℤ) :
    (VisitService.average_wait_time_minutes visits dfrom dto =
      if VisitService.waitQualifying visits dfrom dto = [] ∨
          specMeanWaitMinutes visits dfrom dto = 0
      then none
      else some (VisitService.round1 (specMeanWaitMinutes visits dfrom dto))) ∧
    (VisitService.average_consultation_minutes visits dfrom dto =
      if VisitService.consultQualifying visits dfrom dto = [] ∨
          specMeanConsultMinutes visits dfrom dto = 0
      then none
      else some (VisitService.round1 (specMeanConsultMinutes visits dfrom dto))) := by
  constructor
  · unfold VisitService.average_wait_time_minutes VisitService.avgWaitRaw
    by_cases h : VisitService.waitQualifying visits dfrom dto = []
    · simp [h]
    · have hmean : ((VisitService.waitQualifying visits dfrom dto).map fun v =>
          VisitService.tval v.consultation_start_time - VisitService.tval v.check_in_time).sum
            / (VisitService.waitQualifying visits dfrom dto).length / 60 =
          specMeanWaitMinutes visits dfrom dto := by
        unfold specMeanWaitMinutes
        rw [sum_map_div, div_div, div_div, mul_comm]
      have hne : (VisitService.waitQualifying visits dfrom dto).isEmpty = false := by
        simp [h]
      simp only [hne, Bool.false_eq_true, if_false, hmean, if_neg h]
      by_cases hm : specMeanWaitMinutes visits dfrom dto = 0
      · simp [hm]
      · simp [hm, h]
  · unfold VisitService.average_consultation_minutes VisitService.avgConsultRaw
    by_cases h : VisitService.consultQualifying visits dfrom dto = []
    · simp [h]
    · have hmean : ((VisitService.consultQualifying visits dfrom dto).map fun v =>
          VisitService.tval v.consultation_end_time - VisitService.tval v.consultation_start_time).sum
            / (VisitService.consultQualifying visits dfrom dto).length / 60 =
          specMeanConsultMinutes visits dfrom dto := by
        unfold specMeanConsultMinutes
        rw [sum_map_div, div_div, div_div, mul_comm]
      have hne : (VisitService.consultQualifying visits dfrom dto).isEmpty = false := by
        simp [h]
      simp only [hne, Bool.false_eq_true, if_false, hmean, if_neg h]
      by_cases hm : specMeanConsultMinutes visits dfrom dto = 0
      · simp [hm]
      · simp [hm, h]

end EHR
